import Mathlib

/-!
Verification of the Quant-Index-Intraday-Scanner signal pipeline.

Shallow embedding of the repository's pure computational core:
`indicators.py` (rsi, vwap, cpr_levels), `models.py` (the five voting
models), `scanner.py` (consensus tally, total score, grade, and the
background-scan trigger), and `risk_manager.py` (calculate_risk,
evaluate_outcome).  Python floats are modelled as exact rationals;
pandas NaN values are modelled as `Option.none`; Python's 2/3/4-decimal
`round` (half-to-even) is modelled by `roundHE`/`round2`/`round3`/`round4`.
-/

namespace Scanner

/- ── Python round(x, n): round half to even ──────────────────────────── -/

/-- Round-half-to-even of a rational to an integer, as Python's `round`. -/
def roundHE (q : ℚ) : ℤ :=
  let f := ⌊q⌋
  let r := q - (f : ℚ)
  if r < 1/2 then f
  else if 1/2 < r then f + 1
  else if f % 2 = 0 then f else f + 1

/-- Python `round(x, 2)`. -/
def round2 (q : ℚ) : ℚ := (roundHE (q * 100) : ℚ) / 100

/-- Python `round(x, 3)`. -/
def round3 (q : ℚ) : ℚ := (roundHE (q * 1000) : ℚ) / 1000

/-- Python `round(x, 4)`. -/
def round4 (q : ℚ) : ℚ := (roundHE (q * 10000) : ℚ) / 10000

lemma roundHE_ge_floor (q : ℚ) : ⌊q⌋ ≤ roundHE q := by
  unfold roundHE; dsimp only; split_ifs <;> omega

lemma roundHE_le_floor_add_one (q : ℚ) : roundHE q ≤ ⌊q⌋ + 1 := by
  unfold roundHE; dsimp only; split_ifs <;> omega

lemma roundHE_mono {a b : ℚ} (h : a ≤ b) : roundHE a ≤ roundHE b := by
  have hf : ⌊a⌋ ≤ ⌊b⌋ := Int.floor_mono h
  rcases lt_or_eq_of_le hf with hlt | heq
  · calc roundHE a ≤ ⌊a⌋ + 1 := roundHE_le_floor_add_one a
      _ ≤ ⌊b⌋ := by omega
      _ ≤ roundHE b := roundHE_ge_floor b
  · have hr : a - (⌊a⌋ : ℚ) ≤ b - (⌊b⌋ : ℚ) := by
      rw [← heq]; linarith
    unfold roundHE
    dsimp only
    rw [← heq]
    split_ifs <;> first | omega | linarith

lemma round2_mono {a b : ℚ} (h : a ≤ b) : round2 a ≤ round2 b := by
  unfold round2
  have h100 : a * 100 ≤ b * 100 := by linarith
  have := roundHE_mono h100
  have hcast : ((roundHE (a * 100) : ℚ)) ≤ ((roundHE (b * 100) : ℚ)) := by
    exact_mod_cast this
  linarith

lemma round2_zero : round2 0 = 0 := by norm_num [round2, roundHE]

lemma round2_nonneg {a : ℚ} (h : 0 ≤ a) : 0 ≤ round2 a := by
  have := round2_mono h
  rwa [round2_zero] at this

/- ── config.py constants ─────────────────────────────────────────────── -/

def MIN_MODELS_AGREE : ℕ := 3
def DEAD_ZONE_MIN_SCORE : ℕ := 20
def GRADE_A_HIGH_SCORE : ℕ := 20
def GRADE_A_MED_SCORE : ℕ := 16
def ALL_AGREE_BONUS : ℕ := 3
def SL_PCT : ℚ := 4/1000
def TARGET_RR_MIN : ℚ := 3/2
def TARGET_RR_IDEAL : ℚ := 2

/- ── Vote data model (models.py return dicts) ────────────────────────── -/

/-- Model vote direction; the Python code uses the strings
"BUY" / "SELL" / "NEUTRAL". -/
inductive Direction where
  | BUY
  | SELL
  | NEUTRAL
deriving DecidableEq, Repr

open Direction

/-- A model's vote: the dict `direction / score / reason` of models.py.
Scores are Python non-negative ints, modelled as naturals. -/
structure ModelVote where
  direction : Direction
  score : ℕ
  reason : String
deriving DecidableEq, Repr

/- ── scanner.py: consensus tally, total score, grade ─────────────────── -/

def isBuyVote (m : ModelVote) : Bool := m.direction = BUY
def isSellVote (m : ModelVote) : Bool := m.direction = SELL

/-- Lines 159-173 of scanner.py: tally BUY and SELL votes and resolve a
direction and agreeing count, or no signal. -/
def tallyConsensus (results : List ModelVote) : Option (Direction × ℕ) :=
  let b := results.countP isBuyVote
  let s := results.countP isSellVote
  if s ≤ b ∧ MIN_MODELS_AGREE ≤ b then some (BUY, b)
  else if b < s ∧ MIN_MODELS_AGREE ≤ s then some (SELL, s)
  else none

/-- Lines 175-179 of scanner.py: the total score is the sum of all five
scores, plus the all-agree bonus when the agreeing count is 5. -/
def totalScore (results : List ModelVote) (agreeing : ℕ) : ℕ :=
  (results.map ModelVote.score).sum + if agreeing = 5 then ALL_AGREE_BONUS else 0

/-- The consensus-and-score portion of scan_index: direction, agreeing
count and total score, or none when no consensus. -/
def consensusScore (results : List ModelVote) : Option (Direction × ℕ × ℕ) :=
  match tallyConsensus results with
  | some (d, a) => some (d, a, totalScore results a)
  | none => none

/-- scanner.py `_grade`. -/
def grade (total_score agreeing : ℕ) : String :=
  if GRADE_A_HIGH_SCORE ≤ total_score ∧ 4 ≤ agreeing then "A+ HIGH"
  else if GRADE_A_MED_SCORE ≤ total_score ∧ MIN_MODELS_AGREE ≤ agreeing then "A+ MEDIUM"
  else "WATCH"

/- ── indicators.py: RSI ──────────────────────────────────────────────── -/

/-- Wilder recursion `y_next = (1 - alpha) * y + alpha * x`, continuing an
ewm(adjust=False) mean from current value `m` over the remaining inputs. -/
def smoothFrom (alpha : ℚ) (m : ℚ) : List ℚ → List ℚ
  | [] => []
  | x :: xs =>
    let m2 := (1 - alpha) * m + alpha * x
    m2 :: smoothFrom alpha m2 xs

/-- pandas `ewm(alpha, adjust=False).mean()` of a list whose head entry is
the NaN produced by `diff()`: output NaN at the head, then the recursion
seeded at the first value. -/
def ewmAdjFalse (alpha : ℚ) : List ℚ → List (Option ℚ)
  | [] => []
  | x :: xs => some x :: (smoothFrom alpha x xs).map some

/-- Per-row gains of `series.diff().clip(lower=0)` (head NaN dropped;
the caller re-attaches it). -/
def gainsOf (series : List ℚ) : List ℚ :=
  (series.zip series.tail).map fun p => max (p.2 - p.1) 0

/-- Per-row losses of `(-series.diff()).clip(lower=0)`. -/
def lossesOf (series : List ℚ) : List ℚ :=
  (series.zip series.tail).map fun p => max (p.1 - p.2) 0

/-- The `avg_gain` column of indicators.py `rsi`: Wilder ewm (alpha = 1/period,
adjust=False) of the clipped gains; NaN (`none`) at row 0 from `diff()`. -/
def rsiAvgGain (series : List ℚ) (period : ℕ) : List (Option ℚ) :=
  match series with
  | [] => []
  | _ :: _ => none :: ewmAdjFalse (1 / period) (gainsOf series)

/-- The `avg_loss` column of indicators.py `rsi`. -/
def rsiAvgLoss (series : List ℚ) (period : ℕ) : List (Option ℚ) :=
  match series with
  | [] => []
  | _ :: _ => none :: ewmAdjFalse (1 / period) (lossesOf series)

/-- `avg_loss.replace(0, np.nan)` of indicators.py `rsi`: a zero average
loss becomes NaN before the division. -/
def replaceZeroNan (o : Option ℚ) : Option ℚ :=
  match o with
  | some x => if x = 0 then none else some x
  | none => none

/-- indicators.py `rsi`: `rs = avg_gain / avg_loss.replace(0, nan)` and
`100 - 100 / (1 + rs)`, with NaN modelled as `none`. -/
def rsi (series : List ℚ) (period : ℕ) : List (Option ℚ) :=
  let rs := List.zipWith
    (fun g l =>
      match g, replaceZeroNan l with
      | some gv, some lv => some (gv / lv)
      | _, _ => none)
    (rsiAvgGain series period) (rsiAvgLoss series period)
  rs.map (Option.map fun r => 100 - 100 / (1 + r))

/- ── indicators.py: VWAP ─────────────────────────────────────────────── -/

/-- One OHLCV row with its calendar-day key, as used by `vwap`. -/
structure PRow where
  day : ℕ
  high : ℚ
  low : ℚ
  close : ℚ
  volume : ℚ
deriving DecidableEq, Repr

def dPRow : PRow := ⟨0, 0, 0, 0, 0⟩

/-- `(high + low + close) / 3`, the `typical_price` column. -/
def typicalPrice (r : PRow) : ℚ := (r.high + r.low + r.close) / 3

/-- The VWAP value at row `i`: indicators.py groups rows by calendar day and
takes cumulative `typical_price * volume` over cumulative volume inside the
group, with a zero cumulative volume replaced by NaN. Row `i`'s group prefix
is the rows at positions `<= i` sharing row `i`'s day. -/
def vwapAt (rows : List PRow) (i : ℕ) : Option ℚ :=
  let d := (rows.getD i dPRow).day
  let grp := (rows.take (i + 1)).filter fun r => r.day == d
  let cumVol := (grp.map fun r => r.volume).sum
  if cumVol = 0 then none
  else some ((grp.map fun r => typicalPrice r * r.volume).sum / cumVol)

/-- indicators.py `vwap`: the per-row VWAP series. -/
def vwap (rows : List PRow) : List (Option ℚ) :=
  (List.range rows.length).map (vwapAt rows)

/- ── indicators.py: CPR levels ───────────────────────────────────────── -/

structure CprLevels where
  pivot : ℚ
  tc : ℚ
  bc : ℚ
  r1 : ℚ
  r2 : ℚ
  s1 : ℚ
  s2 : ℚ
  cpr_width_pct : ℚ
deriving DecidableEq, Repr

def cprPivotRaw (prev_high prev_low prev_close : ℚ) : ℚ :=
  (prev_high + prev_low + prev_close) / 3

def cprTcRaw (prev_high prev_low prev_close : ℚ) : ℚ :=
  (cprPivotRaw prev_high prev_low prev_close + prev_high) / 2

def cprBcRaw (prev_high prev_low prev_close : ℚ) : ℚ :=
  (cprPivotRaw prev_high prev_low prev_close + prev_low) / 2

def cprR1Raw (prev_high prev_low prev_close : ℚ) : ℚ :=
  2 * cprPivotRaw prev_high prev_low prev_close - prev_low

def cprS1Raw (prev_high prev_low prev_close : ℚ) : ℚ :=
  2 * cprPivotRaw prev_high prev_low prev_close - prev_high

/-- indicators.py `cpr_levels`: the returned dict, every level rounded to
2 decimals and the width percentage to 4 (zero width when the pivot is zero,
from the Python truthiness test `if pivot`). -/
def cpr_levels (prev_high prev_low prev_close : ℚ) : CprLevels :=
  let pivot := cprPivotRaw prev_high prev_low prev_close
  let tc := cprTcRaw prev_high prev_low prev_close
  let bc := cprBcRaw prev_high prev_low prev_close
  let r1 := cprR1Raw prev_high prev_low prev_close
  let r2 := pivot + (prev_high - prev_low)
  let s1 := cprS1Raw prev_high prev_low prev_close
  let s2 := pivot - (prev_high - prev_low)
  let width := if pivot ≠ 0 then |tc - bc| / pivot * 100 else 0
  ⟨round2 pivot, round2 tc, round2 bc, round2 r1, round2 r2,
   round2 s1, round2 s2, round4 width⟩

/- ── models.py: enriched rows and the five models ────────────────────── -/

/-- One row of the enriched DataFrame handed to the models: raw OHLCV
(real numbers from the feed) plus derived indicator columns, which may be
NaN (`none`) during warm-up. `openp` stands for the `open` column. -/
structure ERow where
  openp : ℚ
  high : ℚ
  low : ℚ
  close : ℚ
  volume : ℚ
  ema9 : Option ℚ
  ema21 : Option ℚ
  ema50 : Option ℚ
  rsi14 : Option ℚ
  macd_hist : Option ℚ
  vwapv : Option ℚ
  avg_vol : Option ℚ
  or_high : Option ℚ
  or_low : Option ℚ
deriving Repr

def dERow : ERow := ⟨0, 0, 0, 0, 0, none, none, none, none, none, none, none, none, none⟩

/-- models.py `_last(df, col, offset)` for a raw (never-NaN) column:
`None` exactly when `len(df) - 1 - offset < 0`. -/
def lastQ (rows : List ERow) (f : ERow → ℚ) (offset : ℕ) : Option ℚ :=
  if offset < rows.length then some (f (rows.getD (rows.length - 1 - offset) dERow))
  else none

/-- models.py `_last` for an indicator column, flattening the column's own
NaN into `none` as the models' combined `is None or isnan` tests do. -/
def lastO (rows : List ERow) (f : ERow → Option ℚ) (offset : ℕ) : Option ℚ :=
  if offset < rows.length then f (rows.getD (rows.length - 1 - offset) dERow)
  else none

/-- `_is_bullish`: close above open on the addressed candle. -/
def isBullish (r : ERow) : Bool := r.openp < r.close

/-- models.py `model_orb`. Reason strings keep the code's fixed prefix; the
interpolated numbers of the f-strings are elided. -/
def model_orb (rows : List ERow) : ModelVote :=
  if rows.length < 2 then ⟨NEUTRAL, 0, "ORB: insufficient data"⟩
  else
    match lastO rows ERow.or_high 0, lastO rows ERow.or_low 0 with
    | some orH, some orL =>
      let lr := rows.getD (rows.length - 1) dERow
      let fr := rows.getD 0 dERow
      -- `if avg_vol and avg_vol > 0`: a zero (falsy) or NaN (> 0 is False)
      -- average volume gives ratio 0
      let volMult : ℚ :=
        match lr.avg_vol with
        | some a => if 0 < a then lr.volume / a else 0
        | none => 0
      let gapUp := fr.close < fr.openp
      let body := |lr.close - lr.openp|
      let rng := lr.high - lr.low
      -- `body > 0.3*range if range else False`: zero range is falsy
      let bodyBonus : Bool := if rng ≠ 0 then decide (3/10 * rng < body) else false
      if orH < lr.close ∧ 3/2 ≤ volMult then
        ⟨BUY,
         min (2 + (if 2 ≤ volMult then 1 else 0) + (if bodyBonus then 1 else 0)
            + (if gapUp then 1 else 0)) 5,
         "ORB BUY"⟩
      else if lr.close < orL ∧ 3/2 ≤ volMult then
        ⟨SELL,
         min (2 + (if 2 ≤ volMult then 1 else 0) + (if bodyBonus then 1 else 0)
            + (if ¬gapUp then 1 else 0)) 5,
         "ORB SELL"⟩
      else ⟨NEUTRAL, 0, "ORB: no breakout"⟩
    | _, _ => ⟨NEUTRAL, 0, "ORB: OR not yet set"⟩

/-- models.py `model_vwap`. -/
def model_vwap (rows : List ERow) : ModelVote :=
  if rows.length < 3 then ⟨NEUTRAL, 0, "VWAP: insufficient data"⟩
  else
    let lr := rows.getD (rows.length - 1) dERow
    let pr := rows.getD (rows.length - 2) dERow
    match lr.vwapv, pr.vwapv, lr.rsi14 with
    | some curV, some prevV, some curR =>
      if pr.close < prevV ∧ curR < 40 ∧ curV < lr.close then
        ⟨BUY,
         min (3 + (if curR < 30 then 1 else 0) + (if isBullish lr then 1 else 0)) 5,
         "VWAP BUY reversion"⟩
      else if prevV < pr.close ∧ 60 < curR ∧ lr.close < curV then
        ⟨SELL,
         min (3 + (if 70 < curR then 1 else 0) + (if ¬isBullish lr then 1 else 0)) 5,
         "VWAP SELL reversion"⟩
      else ⟨NEUTRAL, 0, "VWAP: no signal"⟩
    | _, _, _ => ⟨NEUTRAL, 0, "VWAP: NaN values"⟩

/-- models.py `model_ema_trend`. -/
def model_ema_trend (rows : List ERow) : ModelVote :=
  if rows.length < 51 then ⟨NEUTRAL, 0, "EMA: warming up (<51 candles)"⟩
  else
    let lr := rows.getD (rows.length - 1) dERow
    let pr := rows.getD (rows.length - 2) dERow
    match lr.ema9, lr.ema21, lr.ema50 with
    | some e9, some e21, some e50 =>
      -- `if ema50 else 0`: zero slow EMA is falsy
      let sep := if e50 ≠ 0 then |e9 - e50| / e50 * 100 else 0
      if e21 < e9 ∧ e50 < e21 ∧ e9 < lr.close then
        if pr.low ≤ e21 * (1001/1000) then
          ⟨BUY,
           min (3 + (if 3/10 < sep then 1 else 0) + (if isBullish lr then 1 else 0)) 5,
           "EMA BUY"⟩
        else ⟨NEUTRAL, 0, "EMA: no alignment"⟩
      else if e9 < e21 ∧ e21 < e50 ∧ lr.close < e9 then
        if e21 * (999/1000) ≤ pr.high then
          ⟨SELL,
           min (3 + (if 3/10 < sep then 1 else 0) + (if ¬isBullish lr then 1 else 0)) 5,
           "EMA SELL"⟩
        else ⟨NEUTRAL, 0, "EMA: no alignment"⟩
      else ⟨NEUTRAL, 0, "EMA: no alignment"⟩
    | _, _, _ => ⟨NEUTRAL, 0, "EMA: NaN"⟩

/-- models.py `model_momentum`. A NaN `pp_hist` never satisfies either
chained comparison in Python, which coincides with substituting `prev_hist`
(the code's `is not None` fallback) since `prev < prev` is also False. -/
def model_momentum (rows : List ERow) : ModelVote :=
  if rows.length < 5 then ⟨NEUTRAL, 0, "MACD: insufficient data"⟩
  else
    let lr := rows.getD (rows.length - 1) dERow
    let pr := rows.getD (rows.length - 2) dERow
    match lr.rsi14, pr.rsi14, lr.macd_hist, pr.macd_hist with
    | some curR, some prevR, some curH, some prevH =>
      let pp := ((rows.getD (rows.length - 3) dERow).macd_hist).getD prevH
      let accelUp := prevH < curH ∧ pp < prevH
      let accelDown := curH < prevH ∧ prevH < pp
      let hh := pr.high < lr.high
      let ll := lr.low < pr.low
      if 45 ≤ curR ∧ curR ≤ 65 ∧ prevR < curR ∧ 0 < curH ∧ accelUp ∧ hh then
        ⟨BUY,
         min (3 + (if 55 < curR then 1 else 0)
            + (if hh ∧ (rows.getD (rows.length - 4) dERow).high < lr.high then 1 else 0)) 5,
         "MOM BUY"⟩
      else if 35 ≤ curR ∧ curR ≤ 55 ∧ curR < prevR ∧ curH < 0 ∧ accelDown ∧ ll then
        ⟨SELL,
         min (3 + (if curR < 45 then 1 else 0)
            + (if ll ∧ lr.low < (rows.getD (rows.length - 4) dERow).low then 1 else 0)) 5,
         "MOM SELL"⟩
      else ⟨NEUTRAL, 0, "MACD/RSI: no signal"⟩
    | _, _, _, _ => ⟨NEUTRAL, 0, "MACD: NaN"⟩

/-- models.py `model_cpr`. `none` models both a `None` and an empty CPR dict
(the `if not cpr` test). The R1/S1 confluence test divides by the level; in
Python that float division by zero returns inf or nan and never satisfies
the `< 0.002` bound, hence the explicit nonzero guard here. -/
def model_cpr (rows : List ERow) (cpr : Option CprLevels) : ModelVote :=
  match cpr with
  | none => ⟨NEUTRAL, 0, "CPR: levels not available"⟩
  | some cl =>
    match lastQ rows ERow.close 0, lastQ rows ERow.close 1 with
    | some cc, some pc =>
      let narrow : Bool := decide (cl.cpr_width_pct < 1/5)
      if pc ≤ cl.tc ∧ cl.tc < cc then
        ⟨BUY,
         min (3 + (if narrow then 1 else 0)
            + (if cl.r1 ≠ 0 ∧ |cc - cl.r1| / cl.r1 < 2/1000 then 1 else 0)) 5,
         "CPR BUY"⟩
      else if cl.bc ≤ pc ∧ cc < cl.bc then
        ⟨SELL,
         min (3 + (if narrow then 1 else 0)
            + (if cl.s1 ≠ 0 ∧ |cc - cl.s1| / cl.s1 < 2/1000 then 1 else 0)) 5,
         "CPR SELL"⟩
      else ⟨NEUTRAL, 0, "CPR: no breakout"⟩
    | _, _ => ⟨NEUTRAL, 0, "CPR: no close data"⟩

/- ── risk_manager.py: calculate_risk ─────────────────────────────────── -/

structure RiskResult where
  entry : ℚ
  sl : ℚ
  target_1 : ℚ
  target_2 : ℚ
  rr_1 : ℚ
  rr_2 : ℚ
  risk_pts : ℚ
  lot_size : ℕ
deriving DecidableEq, Repr

/-- `LOT_SIZES.get(index, 25)`. -/
def lotSize (index : String) : ℕ :=
  if index = "NIFTY" then 25 else if index = "BANKNIFTY" then 15 else 25

/-- The stop-loss of risk_manager.py `calculate_risk`, before the final
2-decimal rounding of the returned dict. Python truthiness makes a zero
`or_level` behave like `None`, and a zero `orb_sl` falls back to the
percentage stop (`max(...) if orb_sl else pct_sl`); any non-"BUY" direction
takes the SELL branch. -/
def calcSl (direction : Direction) (entry : ℚ) (or_level : Option ℚ) : ℚ :=
  let pct_sl_pts := entry * SL_PCT
  match direction with
  | BUY =>
    let pct_sl := entry - pct_sl_pts
    let orb_sl : Option ℚ :=
      match or_level with
      | some lv => if lv ≠ 0 ∧ lv < entry then some (lv - entry * (1/1000)) else none
      | none => none
    let sl :=
      match orb_sl with
      | some o => if o = 0 then pct_sl else max pct_sl o
      | none => pct_sl
    max sl 0
  | _ =>
    let pct_sl := entry + pct_sl_pts
    let orb_sl : Option ℚ :=
      match or_level with
      | some lv => if lv ≠ 0 ∧ entry < lv then some (lv + entry * (1/1000)) else none
      | none => none
    match orb_sl with
    | some o => if o = 0 then pct_sl else min pct_sl o
    | none => pct_sl

/-- `risk_pts` of `calculate_risk`: the realized entry-to-stop distance,
falling back to the percentage distance when it is zero. This unrounded
value is the divisor of both risk-reward ratios. -/
def calcRiskPts (direction : Direction) (entry : ℚ) (or_level : Option ℚ) : ℚ :=
  let risk0 := |entry - calcSl direction entry or_level|
  if risk0 = 0 then entry * SL_PCT else risk0

/-- `target_1` of `calculate_risk`, before rounding. -/
def calcTarget1 (direction : Direction) (entry : ℚ) (or_level : Option ℚ) : ℚ :=
  match direction with
  | BUY => entry + calcRiskPts direction entry or_level * TARGET_RR_MIN
  | _ => entry - calcRiskPts direction entry or_level * TARGET_RR_MIN

/-- `target_2` of `calculate_risk`, before rounding. -/
def calcTarget2 (direction : Direction) (entry : ℚ) (or_level : Option ℚ) : ℚ :=
  match direction with
  | BUY => entry + calcRiskPts direction entry or_level * TARGET_RR_IDEAL
  | _ => entry - calcRiskPts direction entry or_level * TARGET_RR_IDEAL

/-- risk_manager.py `calculate_risk`: the returned dict, prices rounded to
2 decimals. -/
def calculate_risk (index : String) (direction : Direction) (entry : ℚ)
    (or_level : Option ℚ) : RiskResult :=
  let sl := calcSl direction entry or_level
  let risk_pts := calcRiskPts direction entry or_level
  let target_1 := calcTarget1 direction entry or_level
  let target_2 := calcTarget2 direction entry or_level
  let rr_1 := round2 (|target_1 - entry| / risk_pts)
  let rr_2 := round2 (|target_2 - entry| / risk_pts)
  ⟨round2 entry, round2 sl, round2 target_1, round2 target_2,
   rr_1, rr_2, round2 risk_pts, lotSize index⟩

/- ── risk_manager.py: evaluate_outcome ───────────────────────────────── -/

/-- A post-signal candle: the loop uses only the timestamp, high and low. -/
structure Candle where
  time : ℕ
  high : ℚ
  low : ℚ
deriving DecidableEq, Repr

structure Outcome where
  entry_met : Bool
  entry_met_time : Option ℕ
  outcome : String
  exit_price : Option ℚ
  pnl_pct : Option ℚ
deriving DecidableEq, Repr

/-- The candle loop of `evaluate_outcome`. State: `met` / `metTime` mirror
`result["entry_met"]` and `result["entry_met_time"]`. On a candle seen
before entry is met, only the entry test runs (the Python `continue` skips
the stop/target checks even on the candle that meets entry); once met, the
stop-loss test runs before the target test and either exit breaks the loop. -/
def outcomeLoop (direction : Direction) (entry sl target1 : ℚ) (met : Bool)
    (metTime : Option ℕ) : List Candle → Bool × Option ℕ × String × Option ℚ
  | [] => (met, metTime, "PENDING", none)
  | c :: rest =>
    if met then
      if direction = BUY then
        if c.low ≤ sl then (met, metTime, "SL_HIT", some sl)
        else if target1 ≤ c.high then (met, metTime, "TARGET_HIT", some target1)
        else outcomeLoop direction entry sl target1 met metTime rest
      else
        if sl ≤ c.high then (met, metTime, "SL_HIT", some sl)
        else if c.low ≤ target1 then (met, metTime, "TARGET_HIT", some target1)
        else outcomeLoop direction entry sl target1 met metTime rest
    else
      if direction = BUY ∧ entry ≤ c.high then
        outcomeLoop direction entry sl target1 true (some c.time) rest
      else if direction = SELL ∧ c.low ≤ entry then
        outcomeLoop direction entry sl target1 true (some c.time) rest
      else outcomeLoop direction entry sl target1 false metTime rest

/-- risk_manager.py `evaluate_outcome`: run the loop from the initial
PENDING state, then turn a met-but-open position into WATCHING and compute
the P/L percentage (skipped when the exit price is falsy, i.e. absent
or zero). -/
def evaluate_outcome (direction : Direction) (entry sl target1 : ℚ)
    (candles_after : List Candle) : Outcome :=
  let r := outcomeLoop direction entry sl target1 false none candles_after
  let met := r.1
  let metTime := r.2.1
  let outc := r.2.2.1
  let exitp := r.2.2.2
  let outc2 := if met ∧ outc = "PENDING" then "WATCHING" else outc
  let pnl : Option ℚ :=
    match exitp with
    | some p =>
      if p ≠ 0 ∧ met then
        some (round3 (if direction = BUY then (p - entry) / entry * 100
                      else (entry - p) / entry * 100))
      else none
    | none => none
  ⟨met, metTime, outc2, exitp, pnl⟩

/- ── scanner.py: run_scan_background trigger model ───────────────────── -/

/-- Shared scheduling state for the background-scan trigger: the
`scan_state["running"]` flag, the number of spawned `_scan` threads that
have not yet entered their first locked block, and the number of scan
cycles currently executing. -/
structure SchedState where
  running : Bool
  pending : ℕ
  active : ℕ
deriving DecidableEq, Repr

/-- scanner.py `run_scan_background` up to `t.start()`, as one atomic step:
the lock-guarded read of `running` and, when it is False, the spawning of a
new `_scan` thread. The lock is released before the thread starts, so
`running` is still False afterwards. -/
def run_scan_background (s : SchedState) : SchedState :=
  if s.running then s else { s with pending := s.pending + 1 }

/-- The first lock-guarded block of a spawned `_scan` thread: it sets
`running = True` unconditionally and the cycle becomes active. -/
def scanThreadStart (s : SchedState) : SchedState :=
  if 0 < s.pending then ⟨true, s.pending - 1, s.active + 1⟩ else s

/-- The `finally` block of `_scan`: the cycle ends and `running` clears. -/
def scanThreadFinish (s : SchedState) : SchedState :=
  if 0 < s.active then ⟨false, s.pending, s.active - 1⟩ else s

/- ── Claim theorems ──────────────────────────────────────────────────── -/

/-- C1: the consensus step of scan_index picks the side with the larger
vote count subject to the minimum-agreement threshold (3): a strictly
larger qualifying BUY (resp. SELL) count wins; 3 BUY / 2 SELL resolves to
BUY; 2 BUY / 2 SELL yields no signal; a tie resolves to BUY exactly when
BUY's count itself meets the threshold; and when neither count reaches the
threshold there is no signal. -/
theorem c1_consensus_rule (results : List ModelVote) (_hlen : results.length = 5) :
    (results.countP isSellVote < results.countP isBuyVote →
      MIN_MODELS_AGREE ≤ results.countP isBuyVote →
      tallyConsensus results = some (BUY, results.countP isBuyVote))
  ∧ (results.countP isBuyVote < results.countP isSellVote →
      MIN_MODELS_AGREE ≤ results.countP isSellVote →
      tallyConsensus results = some (SELL, results.countP isSellVote))
  ∧ (results.countP isBuyVote = 3 → results.countP isSellVote = 2 →
      tallyConsensus results = some (BUY, 3))
  ∧ (results.countP isBuyVote = 2 → results.countP isSellVote = 2 →
      tallyConsensus results = none)
  ∧ (results.countP isBuyVote = results.countP isSellVote →
      (tallyConsensus results = some (BUY, results.countP isBuyVote) ↔
        MIN_MODELS_AGREE ≤ results.countP isBuyVote))
  ∧ (results.countP isBuyVote < MIN_MODELS_AGREE →
      results.countP isSellVote < MIN_MODELS_AGREE →
      tallyConsensus results = none) := by
  unfold tallyConsensus MIN_MODELS_AGREE
  refine ⟨?_, ?_, ?_, ?_, ?_, ?_⟩
  · intro h1 h2
    rw [if_pos ⟨le_of_lt h1, h2⟩]
  · intro h1 h2
    rw [if_neg (by omega), if_pos ⟨h1, h2⟩]
  · intro h1 h2
    rw [if_pos (by omega), h1]
  · intro h1 h2
    rw [if_neg (by omega), if_neg (by omega)]
  · intro h1
    constructor
    · intro heq
      by_contra h3
      rw [if_neg (by omega), if_neg (by omega)] at heq
      exact Option.noConfusion heq
    · intro h3
      rw [if_pos ⟨by omega, h3⟩]
  · intro h1 h2
    rw [if_neg (by omega), if_neg (by omega)]

/-- Witness for C1 at concrete vote sets: 3 BUY / 2 SELL resolves to BUY
with agreeing count 3, and 2 BUY / 2 SELL produces no signal. -/
theorem c1_consensus_rule_witness :
    tallyConsensus
      [⟨BUY, 2, "a"⟩, ⟨BUY, 3, "b"⟩, ⟨BUY, 4, "c"⟩, ⟨SELL, 1, "d"⟩, ⟨SELL, 2, "e"⟩]
      = some (BUY, 3)
  ∧ tallyConsensus
      [⟨BUY, 2, "a"⟩, ⟨BUY, 3, "b"⟩, ⟨NEUTRAL, 0, "c"⟩, ⟨SELL, 1, "d"⟩, ⟨SELL, 2, "e"⟩]
      = none :=
  ⟨(c1_consensus_rule _ (by decide)).2.2.1 (by decide) (by decide),
   (c1_consensus_rule _ (by decide)).2.2.2.1 (by decide) (by decide)⟩

/-- Helper: for a 5-vote list, a count of 5 for a predicate means every
vote satisfies it. -/
lemma countP_five_iff_all (results : List ModelVote) (p : ModelVote → Bool)
    (hlen : results.length = 5) :
    results.countP p = 5 ↔ results.all p = true := by
  rw [List.all_eq_true, ← hlen]
  exact List.countP_eq_length

/-- C2: whenever consensus passes, the composite total score is the sum of
all five models' scores plus the all-agree bonus exactly when every model
voted the chosen direction; five identical BUY votes of score 4 give
total score 20 + ALL_AGREE_BONUS = 23 with agreeing = 5, and the grade at
(23, 5) is "A+ HIGH" since the high threshold 20 is at most 20. -/
theorem c2_composite_score :
    (∀ (results : List ModelVote) (d : Direction) (a ts : ℕ),
      results.length = 5 →
      consensusScore results = some (d, a, ts) →
      ts = (results.map ModelVote.score).sum
        + (if results.all (fun m => m.direction = d) then ALL_AGREE_BONUS else 0))
  ∧ consensusScore (List.replicate 5 ⟨BUY, 4, "r"⟩) = some (BUY, 5, 20 + ALL_AGREE_BONUS)
  ∧ GRADE_A_HIGH_SCORE ≤ 20
  ∧ grade (20 + ALL_AGREE_BONUS) 5 = "A+ HIGH" := by
  refine ⟨?_, by decide, by decide, by decide⟩
  intro results d a ts hlen h
  unfold consensusScore at h
  cases htc : tallyConsensus results with
  | none => rw [htc] at h; exact Option.noConfusion h
  | some da =>
    obtain ⟨d0, a0⟩ := da
    rw [htc] at h
    simp only [Option.some.injEq, Prod.mk.injEq] at h
    obtain ⟨hd, ha, hts⟩ := h
    subst hd hts
    unfold tallyConsensus at htc
    dsimp only at htc
    split_ifs at htc with h1 h2
    · simp only [Option.some.injEq, Prod.mk.injEq] at htc
      obtain ⟨hdb, hab⟩ := htc
      subst hdb
      rw [← hab]
      unfold totalScore
      congr 1
      have hiff := countP_five_iff_all results isBuyVote hlen
      unfold isBuyVote at hiff
      exact if_congr hiff rfl rfl
    · simp only [Option.some.injEq, Prod.mk.injEq] at htc
      obtain ⟨hdb, hab⟩ := htc
      subst hdb
      rw [← hab]
      unfold totalScore
      congr 1
      have hiff := countP_five_iff_all results isSellVote hlen
      unfold isSellVote at hiff
      exact if_congr hiff rfl rfl

/-- Witness for C2: the composite-score law instantiated at the five
identical BUY votes of score 4. -/
theorem c2_composite_score_witness :
    (20 + ALL_AGREE_BONUS : ℕ)
      = ((List.replicate 5 (⟨BUY, 4, "r"⟩ : ModelVote)).map ModelVote.score).sum
        + (if (List.replicate 5 (⟨BUY, 4, "r"⟩ : ModelVote)).all
              (fun m => m.direction = BUY) then ALL_AGREE_BONUS else 0) :=
  c2_composite_score.1 (List.replicate 5 ⟨BUY, 4, "r"⟩) BUY 5 (20 + ALL_AGREE_BONUS)
    (by decide) c2_composite_score.2.1

lemma round2_rr_min : round2 TARGET_RR_MIN = TARGET_RR_MIN := by
  norm_num [round2, roundHE, TARGET_RR_MIN]

lemma calcSl_buy_none (entry : ℚ) (hpos : 0 < entry) :
    calcSl BUY entry none = entry * (1 - SL_PCT) := by
  have hfac : (0 : ℚ) < entry * (1 - SL_PCT) :=
    mul_pos hpos (by norm_num [SL_PCT])
  unfold calcSl
  dsimp only
  rw [max_eq_left (by nlinarith [hfac])]
  ring

lemma calcRiskPts_buy_none (entry : ℚ) (hpos : 0 < entry) :
    calcRiskPts BUY entry none = entry * SL_PCT := by
  have hrpos : (0 : ℚ) < entry * SL_PCT := mul_pos hpos (by norm_num [SL_PCT])
  unfold calcRiskPts
  dsimp only
  rw [calcSl_buy_none entry hpos]
  have h1 : entry - entry * (1 - SL_PCT) = entry * SL_PCT := by ring
  rw [h1, abs_of_pos hrpos, if_neg (ne_of_gt hrpos)]

lemma calcSl_sell_none (entry : ℚ) :
    calcSl SELL entry none = entry * (1 + SL_PCT) := by
  unfold calcSl
  dsimp only
  ring

lemma calcRiskPts_sell_none (entry : ℚ) (hpos : 0 < entry) :
    calcRiskPts SELL entry none = entry * SL_PCT := by
  have hrpos : (0 : ℚ) < entry * SL_PCT := mul_pos hpos (by norm_num [SL_PCT])
  unfold calcRiskPts
  dsimp only
  rw [calcSl_sell_none entry]
  have h1 : entry - entry * (1 + SL_PCT) = -(entry * SL_PCT) := by ring
  rw [h1, abs_neg, abs_of_pos hrpos, if_neg (ne_of_gt hrpos)]

lemma calcTarget1_buy_none (entry : ℚ) (hpos : 0 < entry) :
    calcTarget1 BUY entry none = entry + entry * SL_PCT * TARGET_RR_MIN := by
  unfold calcTarget1
  rw [calcRiskPts_buy_none entry hpos]

lemma calcTarget2_buy_none (entry : ℚ) (hpos : 0 < entry) :
    calcTarget2 BUY entry none = entry + entry * SL_PCT * TARGET_RR_IDEAL := by
  unfold calcTarget2
  rw [calcRiskPts_buy_none entry hpos]

lemma calcTarget1_sell_none (entry : ℚ) (hpos : 0 < entry) :
    calcTarget1 SELL entry none = entry - entry * SL_PCT * TARGET_RR_MIN := by
  unfold calcTarget1
  rw [calcRiskPts_sell_none entry hpos]

lemma calcTarget2_sell_none (entry : ℚ) (hpos : 0 < entry) :
    calcTarget2 SELL entry none = entry - entry * SL_PCT * TARGET_RR_IDEAL := by
  unfold calcTarget2
  rw [calcRiskPts_sell_none entry hpos]

/-- C3 counterexample: the claim’s exact equality `sl = entry*(1 - SL_PCT)`
fails on the returned value at entry = 100.01, because calculate_risk
rounds the stop to 2 decimals (99.61 against the exact 99.60996). -/
theorem c3_risk_calc_counterexample :
    (0 : ℚ) < 10001/100
  ∧ (calculate_risk "NIFTY" BUY (10001/100) none).sl ≠ (10001/100) * (1 - SL_PCT) := by
  refine ⟨by norm_num, ?_⟩
  have h1 : (calculate_risk "NIFTY" BUY (10001/100) none).sl
      = round2 (calcSl BUY (10001/100) none) := rfl
  rw [h1, calcSl_buy_none (10001/100) (by norm_num)]
  norm_num [round2, roundHE, SL_PCT]

/-- C3 (amended): for every positive entry with no structural override, the
pre-rounding stop is `entry*(1 - SL_PCT)` and the pre-rounding targets are
`entry ± (entry - sl)*multiple`; the returned fields are those values
rounded to 2 decimals, the returned rr_1 equals TARGET_RR_MIN exactly for
both directions, the SELL targets lie symmetrically below entry, and at
entry = 22500 the rounded values coincide with the claim’s exact ones
(sl = 22410, target_1 = 22635). -/
theorem c3_risk_calc (index : String) (entry : ℚ) (hpos : 0 < entry) :
    calcSl BUY entry none = entry * (1 - SL_PCT)
  ∧ (calculate_risk index BUY entry none).sl = round2 (entry * (1 - SL_PCT))
  ∧ calcTarget1 BUY entry none = entry + (entry - calcSl BUY entry none) * TARGET_RR_MIN
  ∧ (calculate_risk index BUY entry none).target_1
      = round2 (entry + (entry - calcSl BUY entry none) * TARGET_RR_MIN)
  ∧ calcTarget2 BUY entry none = entry + (entry - calcSl BUY entry none) * TARGET_RR_IDEAL
  ∧ (calculate_risk index BUY entry none).rr_1 = TARGET_RR_MIN
  ∧ (calculate_risk index SELL entry none).rr_1 = TARGET_RR_MIN
  ∧ calcTarget1 SELL entry none = entry - (calcSl SELL entry none - entry) * TARGET_RR_MIN
  ∧ calcTarget2 SELL entry none = entry - (calcSl SELL entry none - entry) * TARGET_RR_IDEAL
  ∧ calcTarget1 SELL entry none < entry
  ∧ calcTarget2 SELL entry none < calcTarget1 SELL entry none
  ∧ (calculate_risk "NIFTY" BUY 22500 none).sl = 22410
  ∧ (calculate_risk "NIFTY" BUY 22500 none).target_1 = 22635
  ∧ (calculate_risk "NIFTY" BUY 22500 none).target_2 = 22680
  ∧ (calculate_risk "NIFTY" BUY 22500 none).rr_1 = TARGET_RR_MIN := by
  have hslpct : (0 : ℚ) < SL_PCT := by norm_num [SL_PCT]
  have hrpos : (0 : ℚ) < entry * SL_PCT := mul_pos hpos hslpct
  have hrrpos : (0 : ℚ) < TARGET_RR_MIN := by norm_num [TARGET_RR_MIN]
  have hrr_buy : ∀ (ix : String) (e : ℚ), 0 < e →
      (calculate_risk ix BUY e none).rr_1 = TARGET_RR_MIN := by
    intro ix e he
    have hrp : (0 : ℚ) < e * SL_PCT := mul_pos he hslpct
    have hshow : (calculate_risk ix BUY e none).rr_1
        = round2 (|calcTarget1 BUY e none - e| / calcRiskPts BUY e none) := rfl
    rw [hshow, calcTarget1_buy_none e he, calcRiskPts_buy_none e he]
    have h1 : e + e * SL_PCT * TARGET_RR_MIN - e = e * SL_PCT * TARGET_RR_MIN := by ring
    rw [h1, abs_of_pos (mul_pos hrp hrrpos), mul_comm (e * SL_PCT) TARGET_RR_MIN,
        mul_div_assoc, div_self (ne_of_gt hrp), mul_one, round2_rr_min]
  have hrr_sell : (calculate_risk index SELL entry none).rr_1 = TARGET_RR_MIN := by
    have hshow : (calculate_risk index SELL entry none).rr_1
        = round2 (|calcTarget1 SELL entry none - entry| / calcRiskPts SELL entry none) := rfl
    rw [hshow, calcTarget1_sell_none entry hpos, calcRiskPts_sell_none entry hpos]
    have h1 : entry - entry * SL_PCT * TARGET_RR_MIN - entry
        = -(entry * SL_PCT * TARGET_RR_MIN) := by ring
    rw [h1, abs_neg, abs_of_pos (mul_pos hrpos hrrpos),
        mul_comm (entry * SL_PCT) TARGET_RR_MIN,
        mul_div_assoc, div_self (ne_of_gt hrpos), mul_one, round2_rr_min]
  refine ⟨calcSl_buy_none entry hpos, ?_, ?_, ?_, ?_, hrr_buy index entry hpos,
    hrr_sell, ?_, ?_, ?_, ?_, ?_, ?_, ?_, hrr_buy "NIFTY" 22500 (by norm_num)⟩
  · show round2 (calcSl BUY entry none) = _
    rw [calcSl_buy_none entry hpos]
  · rw [calcTarget1_buy_none entry hpos, calcSl_buy_none entry hpos]
    ring
  · show round2 (calcTarget1 BUY entry none) = _
    rw [calcTarget1_buy_none entry hpos, calcSl_buy_none entry hpos]
    ring_nf
  · rw [calcTarget2_buy_none entry hpos, calcSl_buy_none entry hpos]
    ring
  · rw [calcTarget1_sell_none entry hpos, calcSl_sell_none entry]
    ring
  · rw [calcTarget2_sell_none entry hpos, calcSl_sell_none entry]
    ring
  · rw [calcTarget1_sell_none entry hpos]
    linarith [mul_pos hrpos hrrpos]
  · rw [calcTarget1_sell_none entry hpos, calcTarget2_sell_none entry hpos]
    simp only [TARGET_RR_MIN, TARGET_RR_IDEAL]
    nlinarith [hrpos]
  · have h1 : (calculate_risk "NIFTY" BUY 22500 none).sl
        = round2 (calcSl BUY 22500 none) := rfl
    rw [h1, calcSl_buy_none 22500 (by norm_num)]
    norm_num [round2, roundHE, SL_PCT]
  · have h1 : (calculate_risk "NIFTY" BUY 22500 none).target_1
        = round2 (calcTarget1 BUY 22500 none) := rfl
    rw [h1, calcTarget1_buy_none 22500 (by norm_num)]
    norm_num [round2, roundHE, SL_PCT, TARGET_RR_MIN]
  · have h1 : (calculate_risk "NIFTY" BUY 22500 none).target_2
        = round2 (calcTarget2 BUY 22500 none) := rfl
    rw [h1, calcTarget2_buy_none 22500 (by norm_num)]
    norm_num [round2, roundHE, SL_PCT, TARGET_RR_IDEAL]

/-- Witness for C3 (amended) at entry = 22500. -/
theorem c3_risk_calc_witness :
    calcSl BUY 22500 none = 22500 * (1 - SL_PCT)
  ∧ (calculate_risk "NIFTY" BUY 22500 none).rr_1 = TARGET_RR_MIN :=
  ⟨(c3_risk_calc "NIFTY" 22500 (by norm_num)).1,
   (c3_risk_calc "NIFTY" 22500 (by norm_num)).2.2.2.2.2.1⟩

/-- C10 counterexample: the returned `risk_pts` field is not always
positive — at entry = 0.1 the raw risk distance 0.0004 rounds to 0. -/
theorem c10_risk_pts_counterexample :
    (0 : ℚ) < 1/10
  ∧ (calculate_risk "NIFTY" BUY (1/10) none).risk_pts = 0 := by
  refine ⟨by norm_num, ?_⟩
  have h1 : (calculate_risk "NIFTY" BUY (1/10) none).risk_pts
      = round2 (calcRiskPts BUY (1/10) none) := rfl
  rw [h1, calcRiskPts_buy_none (1/10) (by norm_num)]
  norm_num [round2, roundHE, SL_PCT]

/-- C10 (amended): for every positive entry, any direction and any
opening-range level, the unrounded risk distance (the divisor of rr_1 and
rr_2) is strictly positive, so those divisions never divide by zero; the
zero-distance fallback replaces a zero realized distance with
`entry * SL_PCT`; the BUY stop is clamped to be nonnegative; and the
returned 2-decimal `risk_pts` field is nonnegative (though it can round
to 0 for tiny entries, which is where the claim’s `risk_pts > 0` fails). -/
theorem c10_risk_pts_positive (index : String) (direction : Direction) (entry : ℚ)
    (or_level : Option ℚ) (hpos : 0 < entry) :
    0 < calcRiskPts direction entry or_level
  ∧ (|entry - calcSl direction entry or_level| = 0 →
      calcRiskPts direction entry or_level = entry * SL_PCT)
  ∧ 0 ≤ (calculate_risk index BUY entry or_level).sl
  ∧ 0 ≤ (calculate_risk index direction entry or_level).risk_pts := by
  have hslpct : (0 : ℚ) < SL_PCT := by norm_num [SL_PCT]
  have hr : (0 : ℚ) < entry * SL_PCT := mul_pos hpos hslpct
  have hmain : 0 < calcRiskPts direction entry or_level := by
    unfold calcRiskPts
    dsimp only
    split_ifs with h0
    · exact hr
    · exact abs_pos.mpr fun hc => h0 (by rw [hc, abs_zero])
  refine ⟨hmain, ?_, ?_, ?_⟩
  · intro hz
    unfold calcRiskPts
    dsimp only
    rw [if_pos hz]
  · show 0 ≤ round2 (calcSl BUY entry or_level)
    apply round2_nonneg
    unfold calcSl
    dsimp only
    exact le_max_right _ _
  · show 0 ≤ round2 (calcRiskPts direction entry or_level)
    exact round2_nonneg (le_of_lt hmain)

/-- Witness for C10 (amended) at a BUY signal with entry 22500 and a
structural level at 22450. -/
theorem c10_risk_pts_positive_witness :
    0 < calcRiskPts BUY 22500 (some 22450)
  ∧ 0 ≤ (calculate_risk "NIFTY" BUY 22500 (some 22450)).sl :=
  ⟨(c10_risk_pts_positive "NIFTY" BUY 22500 (some 22450) (by norm_num)).1,
   (c10_risk_pts_positive "NIFTY" BUY 22500 (some 22450) (by norm_num)).2.2.1⟩

/-- C9: the trigger of run_scan_background is racy — the lock-guarded
check of `running` and the later assignment `running = True` inside the
spawned thread are separate critical sections, so two triggers that both
observe `running = False` before either thread starts produce two
concurrently active scan cycles. The first conjunct shows the intended
guard (a trigger observing `running = True` is a no-op); the second
exhibits the interleaving trigger, trigger, start, start reaching two
active cycles, contradicting the at-most-one-cycle claim. -/
theorem c9_trigger_race :
    (∀ p a, run_scan_background ⟨true, p, a⟩ = ⟨true, p, a⟩)
  ∧ (scanThreadStart (scanThreadStart
      (run_scan_background (run_scan_background ⟨false, 0, 0⟩)))).active = 2 := by
  constructor
  · intro p a
    rfl
  · rfl

/-- Helper: if the avg-loss entry at index `i` is `some 0`, the combined
rs/rsi entry at `i` is `none`, whatever the avg-gain list holds. -/
lemma zip_rsi_none (f : ℚ → ℚ) :
    ∀ (gs ls : List (Option ℚ)) (i : ℕ), ls.getD i none = some 0 →
      ((List.zipWith
        (fun g l =>
          match g, replaceZeroNan l with
          | some gv, some lv => some (gv / lv)
          | _, _ => none) gs ls).map (Option.map f)).getD i none = none := by
  intro gs
  induction gs with
  | nil => intro ls i _; simp
  | cons g gt ih =>
    intro ls i hl
    cases ls with
    | nil => simp at hl
    | cons l lt =>
      cases i with
      | zero =>
        simp only [List.getD_cons_zero] at hl
        subst hl
        cases g <;> simp [replaceZeroNan]
      | succ i =>
        simp only [List.getD_cons_succ] at hl ⊢
        simp only [List.zipWith_cons_cons, List.map_cons, List.getD_cons_succ]
        exact ih lt i hl

/-- C4 counterexample: on the strictly rising series [1, 2] the Wilder
average loss at row 1 is exactly 0, and the rsi value there is NaN
(undefined), not a defined maximum value — `replace(0, nan)` turns the
zero average loss into NaN and the NaN propagates through `rs`. -/
theorem c4_rsi_zero_loss_counterexample :
    (rsiAvgLoss [1, 2] 14).getD 1 none = some 0
  ∧ (rsi [1, 2] 14).getD 1 (some 100) = none := by
  constructor
  · show (none :: ewmAdjFalse (1 / (14 : ℕ)) (lossesOf [1, 2])).getD 1 none = some 0
    norm_num [ewmAdjFalse, lossesOf, List.zip]
  · show ((List.zipWith _ (rsiAvgGain [1, 2] 14) (rsiAvgLoss [1, 2] 14)).map
        (Option.map fun r => 100 - 100 / (1 + r))).getD 1 (some 100) = none
    norm_num [rsiAvgGain, rsiAvgLoss, ewmAdjFalse, gainsOf, lossesOf,
      List.zip, replaceZeroNan]

/-- C4 (amended): wherever the Wilder-smoothed average loss is exactly
zero, the rsi function's `replace(0, nan)` avoids the division by zero and
the row's RSI is NaN (`none`) — no error is raised (the embedding is a
total function), but the value is undefined rather than a defined maximum. -/
theorem c4_rsi_zero_loss (series : List ℚ) (period : ℕ) (i : ℕ)
    (hzero : (rsiAvgLoss series period).getD i none = some 0) :
    (rsi series period).getD i none = none := by
  unfold rsi
  exact zip_rsi_none _ _ _ i hzero

/-- Witness for C4 (amended) on the series [1, 2] at row 1. -/
theorem c4_rsi_zero_loss_witness : (rsi [1, 2] 14).getD 1 none = none :=
  c4_rsi_zero_loss [1, 2] 14 1
    (by show (none :: ewmAdjFalse (1 / (14 : ℕ)) (lossesOf [1, 2])).getD 1 none = some 0
        norm_num [ewmAdjFalse, lossesOf, List.zip])

/-- C7 counterexample: with prevHigh = 2 > prevLow = 1 but prevClose = 100
outside the day's range, the returned levels violate `tc > pivot`
(pivot rounds to 34.33, tc to 18.17). -/
theorem c7_cpr_counterexample :
    (1 : ℚ) < 2
  ∧ ¬ ((cpr_levels 2 1 100).pivot < (cpr_levels 2 1 100).tc) := by
  constructor
  · norm_num
  · show ¬ (round2 (cprPivotRaw 2 1 100) < round2 (cprTcRaw 2 1 100))
    norm_num [cprPivotRaw, cprTcRaw, round2, roundHE]

/-- C7 (amended): when the previous day's candle is well-formed
(prevLow ≤ prevClose ≤ prevHigh with prevHigh > prevLow), the exact CPR
levels satisfy the strict orderings bc < pivot < tc and s1 < pivot < r1;
the returned values, being those levels rounded to 2 decimals, satisfy the
non-strict orderings (rounding can collapse a strict gap). -/
theorem c7_cpr_ordering (ph pl pc : ℚ) (hlh : pl < ph) (hlc : pl ≤ pc) (hch : pc ≤ ph) :
    cprBcRaw ph pl pc < cprPivotRaw ph pl pc
  ∧ cprPivotRaw ph pl pc < cprTcRaw ph pl pc
  ∧ cprS1Raw ph pl pc < cprPivotRaw ph pl pc
  ∧ cprPivotRaw ph pl pc < cprR1Raw ph pl pc
  ∧ (cpr_levels ph pl pc).bc ≤ (cpr_levels ph pl pc).pivot
  ∧ (cpr_levels ph pl pc).pivot ≤ (cpr_levels ph pl pc).tc
  ∧ (cpr_levels ph pl pc).s1 ≤ (cpr_levels ph pl pc).pivot
  ∧ (cpr_levels ph pl pc).pivot ≤ (cpr_levels ph pl pc).r1 := by
  have hbc : cprBcRaw ph pl pc < cprPivotRaw ph pl pc := by
    unfold cprBcRaw cprPivotRaw
    linarith
  have htc : cprPivotRaw ph pl pc < cprTcRaw ph pl pc := by
    unfold cprTcRaw cprPivotRaw
    linarith
  have hs1 : cprS1Raw ph pl pc < cprPivotRaw ph pl pc := by
    unfold cprS1Raw cprPivotRaw
    linarith
  have hr1 : cprPivotRaw ph pl pc < cprR1Raw ph pl pc := by
    unfold cprR1Raw cprPivotRaw
    linarith
  refine ⟨hbc, htc, hs1, hr1, ?_, ?_, ?_, ?_⟩
  · exact round2_mono (le_of_lt hbc)
  · exact round2_mono (le_of_lt htc)
  · exact round2_mono (le_of_lt hs1)
  · exact round2_mono (le_of_lt hr1)

/-- Witness for C7 (amended) on the candle high 110 / low 100 / close 105. -/
theorem c7_cpr_ordering_witness :
    cprBcRaw 110 100 105 < cprPivotRaw 110 100 105
  ∧ (cpr_levels 110 100 105).pivot ≤ (cpr_levels 110 100 105).tc :=
  ⟨(c7_cpr_ordering 110 100 105 (by norm_num) (by norm_num) (by norm_num)).1,
   (c7_cpr_ordering 110 100 105 (by norm_num) (by norm_num) (by norm_num)).2.2.2.2.2.1⟩

/-- C5: the outcome evaluator never exits on the candle that first touches
entry — on a candle seen in the awaiting state whose high reaches a BUY
entry, the loop proceeds to the remaining candles in the in-trade state no
matter what that candle's low was; once in trade, a candle whose low
touches the stop yields SL_HIT at the stop price before any target check
(so a candle satisfying both conditions exits at the stop); on the
concrete evaluator, a lone entry candle that also breaches the stop ends
WATCHING with no exit, and a later candle breaching both stop and target
yields SL_HIT at the stop. Mirror statements for SELL. -/
theorem c5_entry_candle_and_sl_priority (entry sl target1 : ℚ) (c c2 : Candle)
    (rest : List Candle) (metTime : Option ℕ) :
    (entry ≤ c.high →
      outcomeLoop BUY entry sl target1 false none (c :: rest)
        = outcomeLoop BUY entry sl target1 true (some c.time) rest)
  ∧ (c.low ≤ sl →
      outcomeLoop BUY entry sl target1 true metTime (c :: rest)
        = (true, metTime, "SL_HIT", some sl))
  ∧ (entry ≤ c.high → c.low ≤ sl →
      (evaluate_outcome BUY entry sl target1 [c]).outcome = "WATCHING"
      ∧ (evaluate_outcome BUY entry sl target1 [c]).exit_price = none)
  ∧ (entry ≤ c.high → c2.low ≤ sl → target1 ≤ c2.high →
      (evaluate_outcome BUY entry sl target1 (c :: c2 :: rest)).outcome = "SL_HIT"
      ∧ (evaluate_outcome BUY entry sl target1 (c :: c2 :: rest)).exit_price = some sl)
  ∧ (c.low ≤ entry →
      outcomeLoop SELL entry sl target1 false none (c :: rest)
        = outcomeLoop SELL entry sl target1 true (some c.time) rest)
  ∧ (sl ≤ c.high →
      outcomeLoop SELL entry sl target1 true metTime (c :: rest)
        = (true, metTime, "SL_HIT", some sl)) := by
  refine ⟨?_, ?_, ?_, ?_, ?_, ?_⟩
  · intro h1
    rw [outcomeLoop]
    simp [h1]
  · intro h1
    rw [outcomeLoop]
    simp [h1]
  · intro h1 _h2
    unfold evaluate_outcome
    simp [outcomeLoop, h1]
  · intro h1 h2 _h3
    unfold evaluate_outcome
    simp [outcomeLoop, h1, h2]
  · intro h1
    rw [outcomeLoop]
    simp [h1]
  · intro h1
    rw [outcomeLoop]
    simp [h1]

/-- Witness for C5 at entry 100, stop 95, target 110: the entry candle
(high 101, low 94) does not exit despite breaching the stop, and the next
candle (high 111, low 94) exits SL_HIT at 95 although it also reaches the
target. -/
theorem c5_entry_candle_and_sl_priority_witness :
    ((evaluate_outcome BUY 100 95 110 [⟨0, 101, 94⟩]).outcome = "WATCHING"
      ∧ (evaluate_outcome BUY 100 95 110 [⟨0, 101, 94⟩]).exit_price = none)
  ∧ ((evaluate_outcome BUY 100 95 110 [⟨0, 101, 94⟩, ⟨1, 111, 94⟩]).outcome = "SL_HIT"
      ∧ (evaluate_outcome BUY 100 95 110 [⟨0, 101, 94⟩, ⟨1, 111, 94⟩]).exit_price
          = some 95) :=
  ⟨(c5_entry_candle_and_sl_priority 100 95 110 ⟨0, 101, 94⟩ ⟨1, 111, 94⟩ [] none).2.2.1
      (by norm_num) (by norm_num),
   (c5_entry_candle_and_sl_priority 100 95 110 ⟨0, 101, 94⟩ ⟨1, 111, 94⟩ [] none).2.2.2.1
      (by norm_num) (by norm_num) (by norm_num)⟩

/-- Helper: if `p` fails on every element of `l.take (i+1)` except element
`i` where it holds, the filtered prefix is exactly that element. -/
lemma take_filter_eq_singleton {α : Type} (d : α) (p : α → Bool) :
    ∀ (l : List α) (i : ℕ), i < l.length →
      (∀ j, j < i → p (l.getD j d) = false) → p (l.getD i d) = true →
      (l.take (i + 1)).filter p = [l.getD i d] := by
  intro l
  induction l with
  | nil => intro i hi _ _; simp at hi
  | cons a t ih =>
    intro i hi hprev hcur
    cases i with
    | zero =>
      simp only [List.getD_cons_zero] at hcur ⊢
      simp [List.filter_cons, hcur]
    | succ i =>
      have ha : p a = false := hprev 0 (Nat.succ_pos i)
      simp only [List.getD_cons_succ] at hcur ⊢
      simp only [List.take_succ_cons, List.filter_cons, ha]
      simp only [Bool.false_eq_true, if_false]
      exact ih i (by simpa using hi) (fun j hj => hprev (j + 1) (by omega)) hcur

/-- C6: within a series whose rows carry calendar-day keys, at any row
that is the first of its day (no earlier row shares its day) and has
positive volume, the VWAP equals that row's typical price — the cumulative
sums contain only that row, so there is no cross-day leakage into a new
day's first row. -/
theorem c6_vwap_first_row_of_day (rows : List PRow) (i : ℕ) (hi : i < rows.length)
    (hfirst : ∀ j ∈ List.range i, (rows.getD j dPRow).day ≠ (rows.getD i dPRow).day)
    (hvol : 0 < (rows.getD i dPRow).volume) :
    vwapAt rows i = some (typicalPrice (rows.getD i dPRow))
  ∧ (vwap rows).getD i none = some (typicalPrice (rows.getD i dPRow)) := by
  have hgrp : (rows.take (i + 1)).filter
      (fun r => r.day == (rows.getD i dPRow).day) = [rows.getD i dPRow] := by
    apply take_filter_eq_singleton dPRow _ rows i hi
    · intro j hj
      have := hfirst j (List.mem_range.mpr hj)
      exact beq_eq_false_iff_ne.mpr this
    · exact beq_self_eq_true _
  have hat : vwapAt rows i = some (typicalPrice (rows.getD i dPRow)) := by
    unfold vwapAt
    dsimp only
    rw [hgrp]
    simp only [List.map_cons, List.map_nil, List.sum_cons, List.sum_nil, add_zero]
    rw [if_neg (ne_of_gt hvol)]
    rw [mul_div_cancel_right₀ _ (ne_of_gt hvol)]
  refine ⟨hat, ?_⟩
  have hlen : i < (vwap rows).length := by
    simpa [vwap] using hi
  rw [List.getD_eq_getElem _ _ hlen]
  unfold vwap
  rw [List.getElem_map, List.getElem_range]
  exact hat

/-- Witness for C6 on a two-day series: the VWAP at the first row of the
second day equals that row's typical price (20 + 16 + 18) / 3 = 18. -/
theorem c6_vwap_first_row_of_day_witness :
    (vwap [⟨1, 10, 8, 9, 100⟩, ⟨2, 20, 16, 18, 50⟩]).getD 1 none = some 18 := by
  have h := (c6_vwap_first_row_of_day [⟨1, 10, 8, 9, 100⟩, ⟨2, 20, 16, 18, 50⟩] 1
    (by norm_num)
    (by intro j hj
        simp only [List.mem_range, Nat.lt_one_iff] at hj
        subst hj
        norm_num)
    (by norm_num)).2
  rw [h]
  norm_num [typicalPrice]

/-- C8: each of the five models is a total function of its inputs (so it
cannot raise), its direction is one of BUY/SELL/NEUTRAL by construction of
`Direction`, its score is a natural number at most 5 on every input —
warm-up NaN indicator columns included, since they are arbitrary `Option`
fields of the rows — and on insufficient history each model returns the
NEUTRAL score-0 vote with its explanatory reason; in particular
model_ema_trend is NEUTRAL until at least 51 candles exist. -/
theorem c8_models_total (rows : List ERow) (cpr : Option CprLevels) :
    ((model_orb rows).score ≤ 5 ∧ (model_vwap rows).score ≤ 5
      ∧ (model_ema_trend rows).score ≤ 5 ∧ (model_momentum rows).score ≤ 5
      ∧ (model_cpr rows cpr).score ≤ 5)
  ∧ (rows.length < 2 → model_orb rows = ⟨NEUTRAL, 0, "ORB: insufficient data"⟩)
  ∧ (rows.length < 3 → model_vwap rows = ⟨NEUTRAL, 0, "VWAP: insufficient data"⟩)
  ∧ (rows.length < 51 →
      model_ema_trend rows = ⟨NEUTRAL, 0, "EMA: warming up (<51 candles)"⟩)
  ∧ (rows.length < 5 → model_momentum rows = ⟨NEUTRAL, 0, "MACD: insufficient data"⟩)
  ∧ model_cpr rows none = ⟨NEUTRAL, 0, "CPR: levels not available"⟩ := by
  refine ⟨⟨?_, ?_, ?_, ?_, ?_⟩, ?_, ?_, ?_, ?_, rfl⟩
  · unfold model_orb
    dsimp only
    repeat' first
      | exact Nat.min_le_right _ 5
      | exact Nat.zero_le 5
      | split
  · unfold model_vwap
    dsimp only
    repeat' first
      | exact Nat.min_le_right _ 5
      | exact Nat.zero_le 5
      | split
  · unfold model_ema_trend
    dsimp only
    repeat' first
      | exact Nat.min_le_right _ 5
      | exact Nat.zero_le 5
      | split
  · unfold model_momentum
    dsimp only
    repeat' first
      | exact Nat.min_le_right _ 5
      | exact Nat.zero_le 5
      | split
  · unfold model_cpr
    dsimp only
    repeat' first
      | exact Nat.min_le_right _ 5
      | exact Nat.zero_le 5
      | split
  · intro h
    unfold model_orb
    rw [if_pos h]
  · intro h
    unfold model_vwap
    rw [if_pos h]
  · intro h
    unfold model_ema_trend
    rw [if_pos h]
  · intro h
    unfold model_momentum
    rw [if_pos h]

/-- Witness for C8 on the empty DataFrame: every model returns its
NEUTRAL score-0 insufficient-history vote. -/
theorem c8_models_total_witness :
    model_orb [] = ⟨NEUTRAL, 0, "ORB: insufficient data"⟩
  ∧ model_vwap [] = ⟨NEUTRAL, 0, "VWAP: insufficient data"⟩
  ∧ model_ema_trend [] = ⟨NEUTRAL, 0, "EMA: warming up (<51 candles)"⟩
  ∧ model_momentum [] = ⟨NEUTRAL, 0, "MACD: insufficient data"⟩
  ∧ model_cpr [] none = ⟨NEUTRAL, 0, "CPR: levels not available"⟩ :=
  ⟨(c8_models_total [] none).2.1 (by decide),
   (c8_models_total [] none).2.2.1 (by decide),
   (c8_models_total [] none).2.2.2.1 (by decide),
   (c8_models_total [] none).2.2.2.2.1 (by decide),
   (c8_models_total [] none).2.2.2.2.2⟩

end Scanner
